import Mathlib

/-!
Verification development for the data-model layer of the repository
(`src/src/models.py`), a Python module defining the entities of a RAG
assistant: `DocumentChunk`, `ConversationMessage`, `SearchResult`,
`WebSource` and `ConversationSession`, together with their derived
properties, lifecycle mutators and dict-based serialization.

Embedding conventions:
* Python dicts produced by `to_dict` / consumed by `from_dict` are modelled
  as association lists `List (String × JsonValue)` over a JSON-like value
  type; lookup returns the first binding of a key.
* Python `datetime` objects are modelled as natural numbers (microseconds
  since the epoch), matching the microsecond resolution of `datetime`.
  `datetime.isoformat` / `datetime.fromisoformat` are modelled as an
  injective textual encoding with a parser that fails on every string not
  produced by the encoder; this is the level of abstraction at which the
  claims mention timestamps (exact inverse on encoder output, parse error
  on malformed text).  `datetime.now()` is passed explicitly as a `now`
  argument to every operation that reads the clock.
* Python floats (`score`, `quality_score`) are modelled as rationals; the
  code only compares them against decimal constants, and those comparisons
  are order-faithful under this model.
* Python exceptions raised by `from_dict` (`KeyError`, `ValueError` of an
  enum constructor, the parse `ValueError` of `fromisoformat`, `TypeError`)
  are modelled by the `Except DecodeError` monad.  `DecodeError.typeError`
  marks places where a Python value of unexpected runtime type would be
  stored dynamically rather than raise; no claim exercises those paths, and
  every record appearing in the theorems below is well typed.
-/

/-- JSON-compatible values stored in the serialized dict records. -/
inductive JsonValue where
  | null
  | bool (b : Bool)
  | int (n : Int)
  | float (q : ℚ)
  | str (s : String)
  | list (xs : List JsonValue)
  | dict (d : List (String × JsonValue))

/-- A Python dict with string keys, as an association list. -/
abbrev Dict := List (String × JsonValue)

/-- Lookup of a key in a dict (first binding wins). -/
def dictLookup : Dict → String → Option JsonValue
  | [], _ => none
  | (k, v) :: rest, key => if k = key then some v else dictLookup rest key

/-- Python `data.get(key, default)`. -/
def dictGetD (data : Dict) (key : String) (dflt : JsonValue) : JsonValue :=
  (dictLookup data key).getD dflt

/-- Python truthiness of a JSON value, as used by
`if data.get(\x7b…\x7d):` style checks (`None`, `0`, empty string or
collection are falsy). -/
def pyTruthy : JsonValue → Bool
  | .null => false
  | .bool b => b
  | .int n => decide (n ≠ 0)
  | .float q => decide (q ≠ 0)
  | .str s => decide (s ≠ "")
  | .list [] => false
  | .list (_ :: _) => true
  | .dict [] => false
  | .dict (_ :: _) => true

/-- Exceptions a `from_dict` decoder can raise: `KeyError` for a missing
required key, `ValueError` of an enum constructor applied to an
undeclared value, the parse `ValueError` of `datetime.fromisoformat`,
and `TypeError` (see the module comment: the `typeError` branches are
modelling artifacts for dynamically-typed stores, never exercised by the
claims). -/
inductive DecodeError where
  | keyError (key : String)
  | valueError (value : JsonValue)
  | parseError (text : String)
  | typeError (key : String)

/- ## Model of the Python datetime library -/

/-- Timestamps: microseconds since the epoch (microsecond resolution of
Python `datetime`). -/
abbrev DateTime := Nat

/-- Microseconds per day, the unit conversion behind `timedelta.days`. -/
def usPerDay : Int := 86400000000

/-- Python `timedelta.days` of a difference given in microseconds:
floor division by the length of a day (floor, so negative differences
give negative day counts, as `timedelta` normalization does). -/
def timedeltaDays (diff : Int) : Int := Int.fdiv diff usPerDay

/-- Decimal digit to its ASCII character (codepoint 48 upward). -/
def digitChar (d : ℕ) : Char := Char.ofNat (48 + d)

/-- ASCII character to decimal digit, failing on non-digits. -/
def charDigit? (c : Char) : Option ℕ :=
  if '0' ≤ c ∧ c ≤ '9' then some (c.toNat - 48) else none

/-- Little-endian base-10 digits of `n`, with explicit fuel so that the
recursion is structural and kernel-evaluable. -/
def natDigitsFuel : ℕ → ℕ → List ℕ
  | 0, _ => []
  | _ + 1, 0 => []
  | f + 1, n + 1 => ((n + 1) % 10) :: natDigitsFuel f ((n + 1) / 10)

/-- Value of a little-endian digit list. -/
def digitsVal : List ℕ → ℕ
  | [] => 0
  | d :: ds => d + 10 * digitsVal ds

/-- Parse a character list as little-endian decimal digits. -/
def parseDigits : List Char → Option (List ℕ)
  | [] => some []
  | c :: cs =>
    match charDigit? c, parseDigits cs with
    | some d, some ds => some (d :: ds)
    | _, _ => none

/-- Model of `datetime.isoformat()`: an injective, never-empty textual
encoding of the timestamp. -/
def isoformat (t : DateTime) : String :=
  ⟨'D' :: (natDigitsFuel t t).map digitChar⟩

/-- Model of `datetime.fromisoformat`: inverts `isoformat` and fails on
every string the encoder cannot produce (the parse `ValueError` of the
Python function). -/
def fromisoformat (s : String) : Option DateTime :=
  match s.data with
  | 'D' :: cs => (parseDigits cs).map digitsVal
  | _ => none

/-- Model of `datetime.strftime` with the format used for auto-generated
message ids. -/
def strftimeId (t : DateTime) : String :=
  ⟨(natDigitsFuel t t).map digitChar⟩

theorem charDigit_digitChar {d : ℕ} (h : d < 10) : charDigit? (digitChar d) = some d := by
  interval_cases d <;> rfl

theorem natDigitsFuel_lt (f n : ℕ) : ∀ d ∈ natDigitsFuel f n, d < 10 := by
  induction f generalizing n with
  | zero => intro d hd; simp [natDigitsFuel] at hd
  | succ f ih =>
    intro d hd
    cases n with
    | zero => simp [natDigitsFuel] at hd
    | succ m =>
      simp only [natDigitsFuel, List.mem_cons] at hd
      rcases hd with h | h
      · subst h; exact Nat.mod_lt _ (by omega)
      · exact ih _ d h

theorem parseDigits_map {ds : List ℕ} (h : ∀ d ∈ ds, d < 10) :
    parseDigits (ds.map digitChar) = some ds := by
  induction ds with
  | nil => rfl
  | cons d ds ih =>
    simp only [List.map_cons, parseDigits]
    rw [charDigit_digitChar (h d (by simp)), ih (fun x hx => h x (by simp [hx]))]

theorem digitsVal_natDigitsFuel {f n : ℕ} (h : n ≤ f) :
    digitsVal (natDigitsFuel f n) = n := by
  induction f generalizing n with
  | zero => interval_cases n; rfl
  | succ f ih =>
    cases n with
    | zero => rfl
    | succ m =>
      have hdiv : (m + 1) / 10 ≤ f := by
        have := Nat.div_lt_self (Nat.succ_pos m) (by omega : 1 < 10)
        omega
      simp only [natDigitsFuel, digitsVal, ih hdiv]
      omega

theorem fromisoformat_isoformat (t : DateTime) : fromisoformat (isoformat t) = some t := by
  simp only [fromisoformat, isoformat]
  rw [parseDigits_map (natDigitsFuel_lt t t)]
  simp [digitsVal_natDigitsFuel (Nat.le_refl t)]

theorem isoformat_ne_empty (t : DateTime) : isoformat t ≠ "" := by
  simp only [isoformat]
  intro h
  have : 'D' :: (natDigitsFuel t t).map digitChar = [] := by
    exact congrArg String.data h
  simp at this

/- ## Model of pathlib suffix extraction and the enum types -/

/-- ASCII lowercasing of one character (model of `str.lower` at the ASCII
extensions the code compares against). -/
def asciiToLower (c : Char) : Char :=
  if 'A' ≤ c ∧ c ≤ 'Z' then Char.ofNat (c.toNat + 32) else c

/-- Split a character list at every character satisfying `p`. -/
def splitOnPred (p : Char → Bool) : List Char → List (List Char)
  | [] => [[]]
  | c :: cs =>
    let r := splitOnPred p cs
    if p c then [] :: r
    else
      match r with
      | [] => [[c]]
      | h :: t => (c :: h) :: t

/-- Components of a POSIX path as `pathlib` parses them: split on the
path separator, dropping empty components and bare-dot components. -/
def pathComponents (s : String) : List (List Char) :=
  (splitOnPred (fun c => c = '/') s.data).filter
    (fun comp => decide (comp ≠ []) && decide (comp ≠ ['.']))

/-- Model of `PurePath(s).name`: the final parsed component, or empty. -/
def pathNameChars (s : String) : List Char :=
  (pathComponents s).getLast?.getD []

/-- Index of the last dot of a name, if any. -/
def rfindDot (name : List Char) : Option ℕ :=
  (name.reverse.findIdx? (fun c => c = '.')).map (fun j => name.length - 1 - j)

/-- Model of `PurePath.suffix` on a parsed name, following CPython: the
slice from the last dot, provided that dot is neither the first nor the
last character of the name; otherwise the empty string. -/
def nameSuffix (name : List Char) : List Char :=
  match rfindDot name with
  | none => []
  | some i => if 0 < i ∧ i < name.length - 1 then name.drop i else []

/-- Model of `Path(s).suffix.lower()` as computed by the document-type
detection code. -/
def lowerSuffixOf (s : String) : String :=
  ⟨(nameSuffix (pathNameChars s)).map asciiToLower⟩

/-- Enumeration of supported document types (`DocumentType` in the
source). -/
inductive DocumentType where
  | pdf
  | docx
  | md
  | txt
  | web
  | unknown
deriving DecidableEq

/-- String value of a `DocumentType` member. -/
def DocumentType.value : DocumentType → String
  | .pdf => "pdf"
  | .docx => "docx"
  | .md => "markdown"
  | .txt => "text"
  | .web => "web"
  | .unknown => "unknown"

/-- Model of the enum constructor `DocumentType(v)`: succeeds exactly on
the declared string values, raises `ValueError` otherwise (also on any
non-string value, which equals no declared value). -/
def DocumentType.ofValue (v : JsonValue) : Except DecodeError DocumentType :=
  match v with
  | .str s =>
    if s = "pdf" then .ok .pdf
    else if s = "docx" then .ok .docx
    else if s = "markdown" then .ok .md
    else if s = "text" then .ok .txt
    else if s = "web" then .ok .web
    else if s = "unknown" then .ok .unknown
    else .error (.valueError (.str s))
  | _ => .error (.valueError v)

/-- Enumeration of content sources (`ContentSource` in the source). -/
inductive ContentSource where
  | local_document
  | web_scrape
  | forum_post
  | documentation
  | manual
deriving DecidableEq

/-- String value of a `ContentSource` member. -/
def ContentSource.value : ContentSource → String
  | .local_document => "local_document"
  | .web_scrape => "web_scrape"
  | .forum_post => "forum_post"
  | .documentation => "documentation"
  | .manual => "manual"

/-- Model of the enum constructor `ContentSource(v)`. -/
def ContentSource.ofValue (v : JsonValue) : Except DecodeError ContentSource :=
  match v with
  | .str s =>
    if s = "local_document" then .ok .local_document
    else if s = "web_scrape" then .ok .web_scrape
    else if s = "forum_post" then .ok .forum_post
    else if s = "documentation" then .ok .documentation
    else if s = "manual" then .ok .manual
    else .error (.valueError (.str s))
  | _ => .error (.valueError v)

theorem docType_ofValue_value (dt : DocumentType) :
    DocumentType.ofValue (.str dt.value) = .ok dt := by
  cases dt <;> rfl

theorem contentSource_ofValue_value (cs : ContentSource) :
    ContentSource.ofValue (.str cs.value) = .ok cs := by
  cases cs <;> rfl

/- ## Field extraction helpers shared by the decoders -/

/-- Python `data[key]` expected to hold a string: `KeyError` when the key
is missing (the failure mode of required fields). -/
def reqStr (data : Dict) (key : String) : Except DecodeError String :=
  match dictLookup data key with
  | none => .error (.keyError key)
  | some (.str s) => .ok s
  | some _ => .error (.typeError key)

/-- Python `data[key]` expected to hold a float. -/
def reqFloat (data : Dict) (key : String) : Except DecodeError ℚ :=
  match dictLookup data key with
  | none => .error (.keyError key)
  | some (.float q) => .ok q
  | some _ => .error (.typeError key)

/-- Python `data.get(key, default)` expected to hold a string. -/
def getStrD (data : Dict) (key : String) (dflt : String) : Except DecodeError String :=
  match dictLookup data key with
  | none => .ok dflt
  | some (.str s) => .ok s
  | some _ => .error (.typeError key)

/-- Python `data.get(key, default)` expected to hold an int. -/
def getIntD (data : Dict) (key : String) (dflt : Int) : Except DecodeError Int :=
  match dictLookup data key with
  | none => .ok dflt
  | some (.int n) => .ok n
  | some _ => .error (.typeError key)

/-- Python `data.get(key, default)` expected to hold a float. -/
def getFloatD (data : Dict) (key : String) (dflt : ℚ) : Except DecodeError ℚ :=
  match dictLookup data key with
  | none => .ok dflt
  | some (.float q) => .ok q
  | some _ => .error (.typeError key)

/-- Python `data.get(key, \x7b\x7d)` expected to hold a dict. -/
def getDictD (data : Dict) (key : String) : Except DecodeError Dict :=
  match dictLookup data key with
  | none => .ok []
  | some (.dict d) => .ok d
  | some _ => .error (.typeError key)

/-- Effectful map over a list in the `Except` monad, failing at the first
failing element (the propagation behavior of a Python list
comprehension). -/
def mapExcept {α β : Type} (f : α → Except DecodeError β) : List α → Except DecodeError (List β)
  | [] => .ok []
  | x :: xs => do
    let y ← f x
    let ys ← mapExcept f xs
    .ok (y :: ys)

/-- Decode one float of an embedding vector. -/
def floatOf (key : String) : JsonValue → Except DecodeError ℚ
  | .float q => .ok q
  | _ => .error (.typeError key)

/-- Decode one string of a sources list. -/
def strOf (key : String) : JsonValue → Except DecodeError String
  | .str s => .ok s
  | _ => .error (.typeError key)

/-- Encoding of an optional embedding vector (`None` or list of floats). -/
def encodeEmbedding : Option (List ℚ) → JsonValue
  | none => .null
  | some xs => .list (xs.map JsonValue.float)

/-- Decoding counterpart of `encodeEmbedding`: `data.get` returning a
missing key or `None` yields no vector. -/
def decodeEmbeddingValue : JsonValue → Except DecodeError (Option (List ℚ))
  | .null => .ok none
  | .list vs => (mapExcept (floatOf "embedding") vs).map some
  | _ => .error (.typeError "embedding")

/-- Python `data.get(key)` for the embedding slot. -/
def getEmbeddingD (data : Dict) : Except DecodeError (Option (List ℚ)) :=
  match dictLookup data "embedding" with
  | none => .ok none
  | some v => decodeEmbeddingValue v

/-- Python `data.get(key)` for an optional int slot (`token_count`). -/
def getOptIntD (data : Dict) (key : String) : Except DecodeError (Option Int) :=
  match dictLookup data key with
  | none => .ok none
  | some .null => .ok none
  | some (.int n) => .ok (some n)
  | some _ => .error (.typeError key)

/-- Python `data.get(key, [])` for a list of strings (`sources`). -/
def getStrListD (data : Dict) (key : String) : Except DecodeError (List String) :=
  match dictLookup data key with
  | none => .ok []
  | some (.list vs) => mapExcept (strOf key) vs
  | some _ => .error (.typeError key)

/-- Application of `datetime.fromisoformat` to a dict value: the parse
`ValueError` on malformed text, `TypeError` on non-strings. -/
def parseIsoValue (v : JsonValue) : Except DecodeError DateTime :=
  match v with
  | .str s =>
    match fromisoformat s with
    | some t => .ok t
    | none => .error (.parseError s)
  | _ => .error (.typeError "fromisoformat")

theorem ok_bind {ε α β : Type} {f : α → Except ε β} (a : α) :
    (Except.ok a >>= f : Except ε β) = f a := rfl

theorem exbind_ok {ε α β : Type} {b : β} (x : Except ε α)
    (f : α → Except ε β) :
    x >>= f = Except.ok b ↔ ∃ y, x = Except.ok y ∧ f y = Except.ok b := by
  cases x with
  | error e => simp [Bind.bind, Except.bind]
  | ok a => simp [Bind.bind, Except.bind]

theorem parseIsoValue_isoformat (t : DateTime) :
    parseIsoValue (.str (isoformat t)) = .ok t := by
  simp [parseIsoValue, fromisoformat_isoformat]

theorem decodeEmbedding_encode (e : Option (List ℚ)) :
    decodeEmbeddingValue (encodeEmbedding e) = .ok e := by
  cases e with
  | none => rfl
  | some xs =>
    simp only [encodeEmbedding, decodeEmbeddingValue]
    have h : ∀ l : List ℚ, mapExcept (floatOf "embedding") (l.map JsonValue.float) = .ok l := by
      intro l
      induction l with
      | nil => rfl
      | cons x xs ih => simp [mapExcept, List.map_cons, floatOf, ok_bind, ih]
    rw [h xs]; rfl

theorem strList_decode_encode (key : String) (xs : List String) :
    mapExcept (strOf key) (xs.map JsonValue.str) = .ok xs := by
  induction xs with
  | nil => rfl
  | cons x xs ih => simp [mapExcept, List.map_cons, strOf, ok_bind, ih]

/- ## DocumentChunk -/

/-- Fields of a `DocumentChunk` (the stored dataclass fields; `length`
and `word_count` are derived properties defined below). -/
structure DocumentChunk where
  content : String
  source_file : String
  chunk_id : String
  start_char : Int
  end_char : Int
  metadata : Dict
  embedding : Option (List ℚ)
  document_type : DocumentType
  content_source : ContentSource
  created_at : DateTime

/-- Python `dict.get(key, default)` on a dict literal with values of an
arbitrary type (used for the fixed lookup tables of the module). -/
def assocGetD {beta : Type} : List (String × beta) → String → beta → beta
  | [], _, dflt => dflt
  | (k, v) :: rest, key, dflt => if k = key then v else assocGetD rest key dflt

/-- Fixed extension table of `_detect_document_type`. -/
def typeMapping : List (String × DocumentType) :=
  [(".pdf", .pdf), (".docx", .docx), (".md", .md),
   (".txt", .txt), (".html", .web), (".htm", .web)]

/-- Model of `DocumentChunk._detect_document_type`: map the lowercased
pathlib suffix of `source_file` through the fixed table, defaulting to
`unknown` (the surrounding `try/except` also degrades to `unknown`, a
branch that cannot trigger in this total model). -/
def detect_document_type (source_file : String) : DocumentType :=
  assocGetD typeMapping (lowerSuffixOf source_file) .unknown

/-- Model of `DocumentChunk.__post_init__`: backfill `end_char` when it
is falsy and the content is truthy, then run extension detection when
the document type is `UNKNOWN` and the source file is truthy. -/
def DocumentChunk.post_init (c : DocumentChunk) : DocumentChunk :=
  let c1 :=
    if c.end_char = 0 ∧ c.content ≠ "" then
      { c with end_char := c.start_char + (c.content.length : Int) }
    else c
  if c1.document_type = .unknown ∧ c1.source_file ≠ "" then
    { c1 with document_type := detect_document_type c1.source_file }
  else c1

/-- Dataclass construction of a `DocumentChunk` (field assignment
followed by `__post_init__`). -/
def DocumentChunk.make (content source_file chunk_id : String)
    (start_char end_char : Int) (metadata : Dict)
    (embedding : Option (List ℚ)) (document_type : DocumentType)
    (content_source : ContentSource) (created_at : DateTime) : DocumentChunk :=
  DocumentChunk.post_init
    { content := content, source_file := source_file, chunk_id := chunk_id,
      start_char := start_char, end_char := end_char, metadata := metadata,
      embedding := embedding, document_type := document_type,
      content_source := content_source, created_at := created_at }

/-- Derived property `length`: character count of the content. -/
def DocumentChunk.length (c : DocumentChunk) : Int := (c.content.length : Int)

/-- Python `str.split()` word splitting: whitespace runs separate words,
leading and trailing whitespace is ignored. -/
def pyWordSplit (s : String) : List (List Char) :=
  (splitOnPred Char.isWhitespace s.data).filter (fun w => decide (w ≠ []))

/-- Derived property `word_count`: approximate word count. -/
def DocumentChunk.word_count (c : DocumentChunk) : Int := ((pyWordSplit c.content).length : Int)

/-- Model of `DocumentChunk.to_dict`. -/
def DocumentChunk.to_dict (c : DocumentChunk) : Dict :=
  [("content", .str c.content),
   ("source_file", .str c.source_file),
   ("chunk_id", .str c.chunk_id),
   ("start_char", .int c.start_char),
   ("end_char", .int c.end_char),
   ("metadata", .dict c.metadata),
   ("embedding", encodeEmbedding c.embedding),
   ("document_type", .str c.document_type.value),
   ("content_source", .str c.content_source.value),
   ("created_at", .str (isoformat c.created_at)),
   ("length", .int c.length),
   ("word_count", .int c.word_count)]

/-- Model of `DocumentChunk.from_dict`, in Python evaluation order: the
two enum conversions, the timestamp parse, then the constructor
arguments (required lookups first), and finally `__post_init__` inside
the dataclass constructor. -/
def DocumentChunk.from_dict (now : DateTime) (data : Dict) : Except DecodeError DocumentChunk := do
  let doc_type ← DocumentType.ofValue (dictGetD data "document_type" (.str "unknown"))
  let content_src ← ContentSource.ofValue (dictGetD data "content_source" (.str "local_document"))
  let created_at ← parseIsoValue (dictGetD data "created_at" (.str (isoformat now)))
  let content ← reqStr data "content"
  let source_file ← reqStr data "source_file"
  let chunk_id ← reqStr data "chunk_id"
  let start_char ← getIntD data "start_char" 0
  let end_char ← getIntD data "end_char" 0
  let metadata ← getDictD data "metadata"
  let embedding ← getEmbeddingD data
  .ok (DocumentChunk.make content source_file chunk_id start_char end_char
        metadata embedding doc_type content_src created_at)

/- ## ConversationMessage -/

/-- Fields of a `ConversationMessage`. -/
structure ConversationMessage where
  role : String
  content : String
  timestamp : DateTime
  message_id : String
  sources : List String
  metadata : Dict
  token_count : Option Int

/-- Model of `ConversationMessage.__post_init__`: generate the message
id from role and timestamp when the caller left it falsy. -/
def ConversationMessage.post_init (m : ConversationMessage) : ConversationMessage :=
  if m.message_id = "" then
    { m with message_id := m.role ++ "_" ++ strftimeId m.timestamp }
  else m

/-- Dataclass construction of a `ConversationMessage` (field assignment
followed by `__post_init__`). -/
def ConversationMessage.make (role content : String) (timestamp : DateTime)
    (message_id : String) (sources : List String) (metadata : Dict)
    (token_count : Option Int) : ConversationMessage :=
  ConversationMessage.post_init
    { role := role, content := content, timestamp := timestamp,
      message_id := message_id, sources := sources, metadata := metadata,
      token_count := token_count }

/-- Model of `ConversationMessage.to_dict`. -/
def ConversationMessage.to_dict (m : ConversationMessage) : Dict :=
  [("role", .str m.role),
   ("content", .str m.content),
   ("timestamp", .str (isoformat m.timestamp)),
   ("message_id", .str m.message_id),
   ("sources", .list (m.sources.map JsonValue.str)),
   ("metadata", .dict m.metadata),
   ("token_count", match m.token_count with | none => .null | some n => .int n)]

/-- Model of `ConversationMessage.from_dict`, in Python evaluation
order: the timestamp parse first, then the constructor arguments
(required `role` and `content` lookups first). -/
def ConversationMessage.from_dict (now : DateTime) (data : Dict) :
    Except DecodeError ConversationMessage := do
  let timestamp ← parseIsoValue (dictGetD data "timestamp" (.str (isoformat now)))
  let role ← reqStr data "role"
  let content ← reqStr data "content"
  let message_id ← getStrD data "message_id" ""
  let sources ← getStrListD data "sources"
  let metadata ← getDictD data "metadata"
  let token_count ← getOptIntD data "token_count"
  .ok (ConversationMessage.make role content timestamp message_id sources
        metadata token_count)

/- ## SearchResult -/

/-- Fields of a `SearchResult`. -/
structure SearchResult where
  content : String
  source : String
  score : ℚ
  chunk_id : String
  metadata : Dict
  document_type : DocumentType
  content_source : ContentSource
  timestamp : DateTime

/-- Derived property `is_relevant`: the hardcoded relevance threshold. -/
def SearchResult.is_relevant (r : SearchResult) : Bool :=
  decide ((0.7 : ℚ) ≤ r.score)

/-- Derived property `relevance_level`: the if/elif tier ladder of the
source. -/
def SearchResult.relevance_level (r : SearchResult) : String :=
  if (0.9 : ℚ) ≤ r.score then "Very High"
  else if (0.8 : ℚ) ≤ r.score then "High"
  else if (0.7 : ℚ) ≤ r.score then "Medium"
  else if (0.5 : ℚ) ≤ r.score then "Low"
  else "Very Low"

/-- Model of `SearchResult.to_dict`. -/
def SearchResult.to_dict (r : SearchResult) : Dict :=
  [("content", .str r.content),
   ("source", .str r.source),
   ("score", .float r.score),
   ("chunk_id", .str r.chunk_id),
   ("metadata", .dict r.metadata),
   ("document_type", .str r.document_type.value),
   ("content_source", .str r.content_source.value),
   ("timestamp", .str (isoformat r.timestamp)),
   ("relevance_level", .str r.relevance_level),
   ("is_relevant", .bool r.is_relevant)]

/-- Model of `SearchResult.from_dict`, in Python evaluation order. -/
def SearchResult.from_dict (now : DateTime) (data : Dict) :
    Except DecodeError SearchResult := do
  let doc_type ← DocumentType.ofValue (dictGetD data "document_type" (.str "unknown"))
  let content_src ← ContentSource.ofValue (dictGetD data "content_source" (.str "local_document"))
  let timestamp ← parseIsoValue (dictGetD data "timestamp" (.str (isoformat now)))
  let content ← reqStr data "content"
  let source ← reqStr data "source"
  let score ← reqFloat data "score"
  let chunk_id ← getStrD data "chunk_id" ""
  let metadata ← getDictD data "metadata"
  .ok { content := content, source := source, score := score,
        chunk_id := chunk_id, metadata := metadata, document_type := doc_type,
        content_source := content_src, timestamp := timestamp }

/- ## WebSource -/

/-- Fields of a `WebSource`. -/
structure WebSource where
  url : String
  title : String
  content : String
  last_scraped : Option DateTime
  scrape_frequency : String
  status : String
  content_type : String
  quality_score : ℚ
  metadata : Dict
  error_message : String
  chunk_count : Int

/-- A staleness threshold in days: the values of the `frequency_days`
dict, where `manual` maps to `float(+inf)` so that a finite day count is
never greater than or equal to it. -/
inductive Threshold where
  | finite (days : Int)
  | infinite

/-- Comparison `days >= threshold` against a possibly infinite
threshold. -/
def Threshold.leDays (th : Threshold) (days : Int) : Bool :=
  match th with
  | .finite k => decide (k ≤ days)
  | .infinite => false

/-- The `frequency_days` table of `is_stale`. -/
def frequencyDaysTable : List (String × Threshold) :=
  [("daily", .finite 1), ("weekly", .finite 7),
   ("monthly", .finite 30), ("manual", .infinite)]

/-- Python `frequency_days.get(self.scrape_frequency, 30)`. -/
def frequencyDays (f : String) : Threshold :=
  assocGetD frequencyDaysTable f (.finite 30)

/-- Model of the `WebSource.is_stale` property: `True` when never
scraped, otherwise the whole-day difference between now and
`last_scraped` compared against the frequency threshold. -/
def WebSource.is_stale (now : DateTime) (ws : WebSource) : Bool :=
  match ws.last_scraped with
  | none => true
  | some t =>
    (frequencyDays ws.scrape_frequency).leDays (timedeltaDays ((now : Int) - (t : Int)))

/-- Derived property `is_high_quality`. -/
def WebSource.is_high_quality (ws : WebSource) : Bool :=
  decide ((0.7 : ℚ) ≤ ws.quality_score)

/-- The `status_emojis` table behind `status_emoji`. -/
def statusEmojis : List (String × String) :=
  [("pending", "PENDING"), ("scraped", "SUCCESS"),
   ("failed", "FAILED"), ("excluded", "EXCLUDED")]

/-- Derived property `status_emoji`. -/
def WebSource.status_emoji (ws : WebSource) : String :=
  assocGetD statusEmojis ws.status "UNKNOWN"

/-- Model of `WebSource.mark_scraped`. -/
def WebSource.mark_scraped (now : DateTime) (content : String) (title : String)
    (quality_score : ℚ) (ws : WebSource) : WebSource :=
  { ws with
      content := content
      title := title
      last_scraped := some now
      status := "scraped"
      quality_score := quality_score
      error_message := "" }

/-- Model of `WebSource.mark_failed`. -/
def WebSource.mark_failed (now : DateTime) (error_message : String)
    (ws : WebSource) : WebSource :=
  { ws with
      status := "failed"
      error_message := error_message
      last_scraped := some now }

/-- Model of `WebSource.to_dict` (it reads the clock through the
`is_stale` convenience field, hence the `now` argument). -/
def WebSource.to_dict (now : DateTime) (ws : WebSource) : Dict :=
  [("url", .str ws.url),
   ("title", .str ws.title),
   ("content", .str ws.content),
   ("last_scraped", match ws.last_scraped with
                    | none => .null
                    | some t => .str (isoformat t)),
   ("scrape_frequency", .str ws.scrape_frequency),
   ("status", .str ws.status),
   ("content_type", .str ws.content_type),
   ("quality_score", .float ws.quality_score),
   ("metadata", .dict ws.metadata),
   ("error_message", .str ws.error_message),
   ("chunk_count", .int ws.chunk_count),
   ("is_stale", .bool (ws.is_stale now)),
   ("is_high_quality", .bool ws.is_high_quality),
   ("status_emoji", .str ws.status_emoji)]

/-- The `last_scraped` step of `WebSource.from_dict`: parse only when
`data.get` returns a truthy value, otherwise keep `None`. -/
def decodeLastScraped (data : Dict) : Except DecodeError (Option DateTime) :=
  let v := dictGetD data "last_scraped" .null
  if pyTruthy v then (parseIsoValue v).map some else .ok none

/-- Model of `WebSource.from_dict`, in Python evaluation order: the
conditional timestamp parse first, then the constructor arguments with
the required `url` lookup first. -/
def WebSource.from_dict (data : Dict) : Except DecodeError WebSource := do
  let last_scraped ← decodeLastScraped data
  let url ← reqStr data "url"
  let title ← getStrD data "title" ""
  let content ← getStrD data "content" ""
  let scrape_frequency ← getStrD data "scrape_frequency" "monthly"
  let status ← getStrD data "status" "pending"
  let content_type ← getStrD data "content_type" "unknown"
  let quality_score ← getFloatD data "quality_score" 0
  let metadata ← getDictD data "metadata"
  let error_message ← getStrD data "error_message" ""
  let chunk_count ← getIntD data "chunk_count" 0
  .ok { url := url, title := title, content := content,
        last_scraped := last_scraped, scrape_frequency := scrape_frequency,
        status := status, content_type := content_type,
        quality_score := quality_score, metadata := metadata,
        error_message := error_message, chunk_count := chunk_count }

/- ## ConversationSession -/

/-- Fields of a `ConversationSession`. -/
structure ConversationSession where
  session_id : String
  messages : List ConversationMessage
  created_at : DateTime
  last_activity : DateTime
  metadata : Dict

/-- Model of `ConversationSession.add_message`: append and bump
`last_activity`. -/
def ConversationSession.add_message (now : DateTime) (m : ConversationMessage)
    (s : ConversationSession) : ConversationSession :=
  { s with messages := s.messages ++ [m], last_activity := now }

/-- Python list slicing `l[start:]`: a negative start counts from the
end and clamps at zero, a nonnegative start clamps at the length. -/
def pySliceFrom {α : Type} (l : List α) (start : Int) : List α :=
  let n : Int := l.length
  let s := if start < 0 then max (start + n) 0 else min start n
  l.drop s.toNat

/-- Model of `ConversationSession.get_recent_messages`: the slice
`messages[-count:]` when the list is longer than `count`, otherwise the
whole list. -/
def ConversationSession.get_recent_messages (count : Int)
    (s : ConversationSession) : List ConversationMessage :=
  if (s.messages.length : Int) > count then pySliceFrom s.messages (-count)
  else s.messages

/-- Derived property `message_count`. -/
def ConversationSession.message_count (s : ConversationSession) : Int :=
  (s.messages.length : Int)

/-- Derived property `total_tokens`: sum of `token_count or 0`. -/
def ConversationSession.total_tokens (s : ConversationSession) : Int :=
  (s.messages.map (fun m => m.token_count.getD 0)).sum

/-- Model of `ConversationSession.to_dict`. -/
def ConversationSession.to_dict (s : ConversationSession) : Dict :=
  [("session_id", .str s.session_id),
   ("messages", .list (s.messages.map (fun m => .dict m.to_dict))),
   ("created_at", .str (isoformat s.created_at)),
   ("last_activity", .str (isoformat s.last_activity)),
   ("metadata", .dict s.metadata),
   ("message_count", .int s.message_count),
   ("total_tokens", .int s.total_tokens)]

/-- The message-list step of `ConversationSession.from_dict`: decode
every element of `data.get("messages", [])` through
`ConversationMessage.from_dict`. -/
def decodeMessages (now : DateTime) (v : JsonValue) :
    Except DecodeError (List ConversationMessage) :=
  match v with
  | .list xs =>
    mapExcept (fun x =>
      match x with
      | .dict d => ConversationMessage.from_dict now d
      | _ => .error (.typeError "messages")) xs
  | _ => .error (.typeError "messages")

/-- Model of `ConversationSession.from_dict`, in Python evaluation
order: messages, the two timestamp parses, then the constructor
arguments with the required `session_id` lookup first. -/
def ConversationSession.from_dict (now : DateTime) (data : Dict) :
    Except DecodeError ConversationSession := do
  let messages ← decodeMessages now (dictGetD data "messages" (.list []))
  let created_at ← parseIsoValue (dictGetD data "created_at" (.str (isoformat now)))
  let last_activity ← parseIsoValue (dictGetD data "last_activity" (.str (isoformat now)))
  let session_id ← reqStr data "session_id"
  let metadata ← getDictD data "metadata"
  .ok { session_id := session_id, messages := messages,
        created_at := created_at, last_activity := last_activity,
        metadata := metadata }

/- ## Roundtrip lemmas -/

theorem chunk_roundtrip_aux (now : DateTime) (c : DocumentChunk)
    (h : c.post_init = c) : DocumentChunk.from_dict now c.to_dict = .ok c := by
  obtain ⟨cc, sf, cid, sc, ec, md, emb, dt, cs, ca⟩ := c
  simp [DocumentChunk.from_dict, DocumentChunk.to_dict, DocumentChunk.make, dictGetD,
    dictLookup, reqStr, getIntD, getDictD, getEmbeddingD, decodeEmbedding_encode,
    docType_ofValue_value, contentSource_ofValue_value,
    parseIsoValue_isoformat, ok_bind]
  exact h

theorem message_roundtrip_aux (now : DateTime) (m : ConversationMessage)
    (h : m.post_init = m) : ConversationMessage.from_dict now m.to_dict = .ok m := by
  obtain ⟨r, c, ts, mid, srcs, md, tk⟩ := m
  cases tk with
  | none =>
    simp [ConversationMessage.from_dict, ConversationMessage.to_dict,
      ConversationMessage.make, dictGetD, dictLookup, reqStr, getStrD, getStrListD,
      strList_decode_encode, getDictD, getOptIntD, parseIsoValue_isoformat, ok_bind]
    exact h
  | some n =>
    simp [ConversationMessage.from_dict, ConversationMessage.to_dict,
      ConversationMessage.make, dictGetD, dictLookup, reqStr, getStrD, getStrListD,
      strList_decode_encode, getDictD, getOptIntD, parseIsoValue_isoformat, ok_bind]
    exact h

theorem search_roundtrip_aux (now : DateTime) (r : SearchResult) :
    SearchResult.from_dict now r.to_dict = .ok r := by
  obtain ⟨c, s, sc, cid, md, dt, cs, ts⟩ := r
  simp [SearchResult.from_dict, SearchResult.to_dict, dictGetD, dictLookup,
    reqStr, reqFloat, getStrD, getDictD, docType_ofValue_value,
    contentSource_ofValue_value, parseIsoValue_isoformat, ok_bind]

theorem websource_roundtrip_aux (now : DateTime) (ws : WebSource) :
    WebSource.from_dict (ws.to_dict now) = .ok ws := by
  obtain ⟨u, ti, c, ls, sf, st, ct, q, md, em, cc⟩ := ws
  cases ls with
  | none =>
    simp [WebSource.from_dict, WebSource.to_dict, decodeLastScraped, dictGetD,
      dictLookup, pyTruthy, reqStr, getStrD, getFloatD, getDictD, getIntD, ok_bind]
  | some t =>
    simp [WebSource.from_dict, WebSource.to_dict, decodeLastScraped, dictGetD,
      dictLookup, pyTruthy, reqStr, getStrD, getFloatD, getDictD, getIntD, ok_bind,
      isoformat_ne_empty t, parseIsoValue_isoformat, Except.map]

theorem decodeMessages_roundtrip (now : DateTime) (msgs : List ConversationMessage)
    (h : ∀ m ∈ msgs, m.post_init = m) :
    decodeMessages now (.list (msgs.map (fun m => .dict m.to_dict))) = .ok msgs := by
  simp only [decodeMessages]
  induction msgs with
  | nil => rfl
  | cons m ms ih =>
    simp only [List.map_cons, mapExcept,
      message_roundtrip_aux now m (h m (by simp)), ok_bind]
    rw [ih (fun x hx => h x (by simp [hx]))]
    rfl

theorem session_roundtrip_aux (now : DateTime) (s : ConversationSession)
    (h : ∀ m ∈ s.messages, m.post_init = m) :
    ConversationSession.from_dict now s.to_dict = .ok s := by
  obtain ⟨sid, msgs, ca, la, md⟩ := s
  have hm := decodeMessages_roundtrip now msgs h
  simp [ConversationSession.from_dict, ConversationSession.to_dict, dictGetD,
    dictLookup, reqStr, getDictD, parseIsoValue_isoformat, ok_bind, hm]

/- ## Claim C2: staleness policy -/

/-- Threshold table as the spec states it: daily=1, weekly=7, monthly=30,
any other (non-manual) string 30. -/
def specFrequencyThreshold (f : String) : Int :=
  if f = "daily" then 1
  else if f = "weekly" then 7
  else if f = "monthly" then 30
  else 30

theorem frequencyDays_cases (f : String) :
    frequencyDays f =
      (if f = "daily" then .finite 1
       else if f = "weekly" then .finite 7
       else if f = "monthly" then .finite 30
       else if f = "manual" then .infinite
       else .finite 30) := by
  unfold frequencyDays frequencyDaysTable
  by_cases h1 : f = "daily" <;> by_cases h2 : f = "weekly" <;>
    by_cases h3 : f = "monthly" <;> by_cases h4 : f = "manual" <;>
    simp_all [assocGetD, eq_comm]

/-- A weekly source last scraped at the epoch. -/
def weeklySource : WebSource :=
  { url := "https://docs.example.com/x", title := "", content := "",
    last_scraped := some 0, scrape_frequency := "weekly", status := "scraped",
    content_type := "unknown", quality_score := 0, metadata := [],
    error_message := "", chunk_count := 0 }

/-- The same source with manual frequency. -/
def manualSource : WebSource :=
  { weeklySource with scrape_frequency := "manual" }

/-- The same source never scraped. -/
def neverScrapedSource : WebSource :=
  { weeklySource with last_scraped := none }

/-- C2: a WebSource is stale when never scraped; otherwise exactly when
the whole-day difference between now and last_scraped reaches the
frequency threshold (daily=1, weekly=7, monthly=30, unknown strings 30)
and the frequency is not manual; in particular a weekly source scraped
exactly 7 days ago is stale, one scraped 6 days ago is not, a manual
source is never stale, and a never-scraped source always is. -/
theorem websource_is_stale_policy :
    (∀ (now : DateTime) (ws : WebSource), ws.last_scraped = none →
       ws.is_stale now = true) ∧
    (∀ (now : DateTime) (ws : WebSource) (t : DateTime), ws.last_scraped = some t →
       (ws.is_stale now = true ↔
         ws.scrape_frequency ≠ "manual" ∧
           specFrequencyThreshold ws.scrape_frequency ≤
             timedeltaDays ((now : Int) - (t : Int)))) ∧
    weeklySource.is_stale 604800000000 = true ∧
    weeklySource.is_stale 518400000000 = false ∧
    (∀ now : DateTime, manualSource.is_stale now = false) ∧
    (∀ now : DateTime, neverScrapedSource.is_stale now = true) := by
  refine ⟨?_, ?_, by decide, by decide, fun now => rfl, fun now => rfl⟩
  · intro now ws h
    simp [WebSource.is_stale, h]
  · intro now ws t h
    rw [WebSource.is_stale, h]
    rw [frequencyDays_cases]
    by_cases h1 : ws.scrape_frequency = "daily" <;>
      by_cases h2 : ws.scrape_frequency = "weekly" <;>
      by_cases h3 : ws.scrape_frequency = "monthly" <;>
      by_cases h4 : ws.scrape_frequency = "manual" <;>
      simp_all [Threshold.leDays, specFrequencyThreshold]

/-- C2 witness: the policy evaluated on the weekly source at the 7-day
boundary and on a never-scraped source. -/
theorem websource_is_stale_policy_witness :
    (weeklySource.last_scraped = some 0 ∧
      (weeklySource.is_stale 604800000000 = true ↔
        weeklySource.scrape_frequency ≠ "manual" ∧
          specFrequencyThreshold weeklySource.scrape_frequency ≤
            timedeltaDays ((604800000000 : Int) - ((0 : DateTime) : Int)))) ∧
    (neverScrapedSource.last_scraped = none ∧
      neverScrapedSource.is_stale 1 = true) :=
  ⟨⟨rfl, websource_is_stale_policy.2.1 604800000000 weeklySource 0 rfl⟩,
   ⟨rfl, websource_is_stale_policy.1 1 neverScrapedSource rfl⟩⟩

/- ## Claim C3: relevance tiers -/

/-- A SearchResult carrying only a score, for boundary instances. -/
def scoreOnly (q : ℚ) : SearchResult :=
  { content := "", source := "", score := q, chunk_id := "", metadata := [],
    document_type := .unknown, content_source := .local_document, timestamp := 0 }

/-- C3: relevance_level bins the score into Very High at 0.9 and above,
High in [0.8, 0.9), Medium in [0.7, 0.8), Low in [0.5, 0.7) and Very Low
below 0.5, with no range validation, and is_relevant holds exactly at
0.7 and above; the seven boundary scores map as the spec lists them. -/
theorem search_result_relevance_tiers :
    (∀ r : SearchResult,
      (r.relevance_level = "Very High" ↔ (0.9 : ℚ) ≤ r.score) ∧
      (r.relevance_level = "High" ↔ (0.8 : ℚ) ≤ r.score ∧ r.score < 0.9) ∧
      (r.relevance_level = "Medium" ↔ (0.7 : ℚ) ≤ r.score ∧ r.score < 0.8) ∧
      (r.relevance_level = "Low" ↔ (0.5 : ℚ) ≤ r.score ∧ r.score < 0.7) ∧
      (r.relevance_level = "Very Low" ↔ r.score < 0.5) ∧
      (r.is_relevant = true ↔ (0.7 : ℚ) ≤ r.score)) ∧
    (scoreOnly 0.9).relevance_level = "Very High" ∧
    (scoreOnly 0.8999).relevance_level = "High" ∧
    (scoreOnly 0.8).relevance_level = "High" ∧
    (scoreOnly 0.7).relevance_level = "Medium" ∧
    (scoreOnly 0.69).relevance_level = "Low" ∧
    (scoreOnly 0.5).relevance_level = "Low" ∧
    (scoreOnly 0.49).relevance_level = "Very Low" ∧
    (scoreOnly 0.7).is_relevant = true ∧
    (scoreOnly 0.6999).is_relevant = false ∧
    ((scoreOnly 1.5).relevance_level = "Very High" ∧
      (scoreOnly (-0.5)).relevance_level = "Very Low") := by
  constructor
  · intro r
    refine ⟨?_, ?_, ?_, ?_, ?_, by simp [SearchResult.is_relevant]⟩ <;>
      unfold SearchResult.relevance_level <;>
      split_ifs with h1 h2 h3 h4 <;> simp_all <;> intros <;> linarith
  · refine ⟨?_, ?_, ?_, ?_, ?_, ?_, ?_, ?_, ?_, ?_, ?_⟩ <;>
      norm_num [scoreOnly, SearchResult.relevance_level, SearchResult.is_relevant]

/- ## Claim C4 (corrected): end_char backfill -/

/-- C4 counterexample: a chunk constructed with empty content,
start_char 5 and end_char left at its unset default keeps end_char 0,
not start_char + length(content) = 5 (the backfill guard also requires
truthy content). -/
theorem chunk_end_char_empty_cex :
    (DocumentChunk.make "" "f.txt" "c1" 5 0 [] none .unknown .local_document 0).end_char
      ≠ 5 + (("" : String).length : Int) := by decide

/-- C4 amended: for every chunk constructed with end_char left at its
unset default and non-empty content, end_char equals
start_char + length(content); with empty content end_char stays 0. -/
theorem chunk_end_char_backfill :
    (∀ (content source_file chunk_id : String) (start_char : Int) (md : Dict)
       (emb : Option (List ℚ)) (dt : DocumentType) (cs : ContentSource)
       (ca : DateTime), content ≠ "" →
       (DocumentChunk.make content source_file chunk_id start_char 0 md emb dt
         cs ca).end_char = start_char + (content.length : Int)) ∧
    (∀ (source_file chunk_id : String) (start_char : Int) (md : Dict)
       (emb : Option (List ℚ)) (dt : DocumentType) (cs : ContentSource)
       (ca : DateTime),
       (DocumentChunk.make "" source_file chunk_id start_char 0 md emb dt
         cs ca).end_char = 0) := by
  constructor
  · intro content source_file chunk_id start_char md emb dt cs ca h
    unfold DocumentChunk.make DocumentChunk.post_init
    rw [if_pos (⟨rfl, h⟩ : (0 : Int) = 0 ∧ content ≠ "")]
    dsimp only
    split <;> rfl
  · intro source_file chunk_id start_char md emb dt cs ca
    unfold DocumentChunk.make DocumentChunk.post_init
    rw [if_neg (by simp : ¬((0 : Int) = 0 ∧ ("" : String) ≠ ""))]
    dsimp only
    split <;> rfl

/-- C4 witness: the backfill evaluated on a three-character content at
start_char 5. -/
theorem chunk_end_char_backfill_witness :
    ("abc" : String) ≠ "" ∧
    (DocumentChunk.make "abc" "f.txt" "c1" 5 0 [] none .unknown .local_document
      0).end_char = 5 + (("abc" : String).length : Int) :=
  ⟨by decide,
   chunk_end_char_backfill.1 "abc" "f.txt" "c1" 5 [] none .unknown
     .local_document 0 (by decide)⟩

/- ## Claim C5: mark_scraped / mark_failed effects -/

/-- C5: mark_scraped stores content, title and quality_score, stamps
last_scraped, sets status scraped and clears the error; mark_failed sets
status failed, stores the error and stamps last_scraped while leaving
content, title and quality_score untouched; both leave url,
scrape_frequency, content_type, metadata and chunk_count unchanged. -/
theorem websource_mark_transitions :
    ∀ (now : DateTime) (content title : String) (q : ℚ) (em : String)
      (ws : WebSource),
      ((ws.mark_scraped now content title q).status = "scraped" ∧
       (ws.mark_scraped now content title q).content = content ∧
       (ws.mark_scraped now content title q).title = title ∧
       (ws.mark_scraped now content title q).quality_score = q ∧
       (ws.mark_scraped now content title q).last_scraped = some now ∧
       (ws.mark_scraped now content title q).error_message = "" ∧
       (ws.mark_scraped now content title q).url = ws.url ∧
       (ws.mark_scraped now content title q).scrape_frequency = ws.scrape_frequency ∧
       (ws.mark_scraped now content title q).content_type = ws.content_type ∧
       (ws.mark_scraped now content title q).metadata = ws.metadata ∧
       (ws.mark_scraped now content title q).chunk_count = ws.chunk_count) ∧
      ((ws.mark_failed now em).status = "failed" ∧
       (ws.mark_failed now em).error_message = em ∧
       (ws.mark_failed now em).last_scraped = some now ∧
       (ws.mark_failed now em).content = ws.content ∧
       (ws.mark_failed now em).title = ws.title ∧
       (ws.mark_failed now em).quality_score = ws.quality_score ∧
       (ws.mark_failed now em).url = ws.url ∧
       (ws.mark_failed now em).scrape_frequency = ws.scrape_frequency ∧
       (ws.mark_failed now em).content_type = ws.content_type ∧
       (ws.mark_failed now em).metadata = ws.metadata ∧
       (ws.mark_failed now em).chunk_count = ws.chunk_count) :=
  fun _ _ _ _ _ _ =>
    ⟨⟨rfl, rfl, rfl, rfl, rfl, rfl, rfl, rfl, rfl, rfl, rfl⟩,
     ⟨rfl, rfl, rfl, rfl, rfl, rfl, rfl, rfl, rfl, rfl, rfl⟩⟩

/- ## Claim C6: transitions are total and ignore the current status -/

/-- C6: both mutators are total and never inspect the current status:
their result is unchanged when the input status is replaced by any
string, and calling them on an excluded source moves it to scraped or
failed (excluded is not sticky). -/
theorem websource_transitions_total :
    ∀ (now : DateTime) (content title : String) (q : ℚ) (em : String)
      (ws : WebSource) (s : String),
      (({ ws with status := s }).mark_scraped now content title q
        = ws.mark_scraped now content title q) ∧
      (({ ws with status := s }).mark_failed now em = ws.mark_failed now em) ∧
      (({ ws with status := "excluded" }).mark_scraped now content title q).status
        = "scraped" ∧
      (({ ws with status := "excluded" }).mark_failed now em).status = "failed" :=
  fun _ _ _ _ _ _ _ => ⟨rfl, rfl, rfl, rfl⟩

/- ## Claim C7 (corrected): recent-message windowing -/

/-- A one-message session for the windowing boundary. -/
def msgA : ConversationMessage :=
  ConversationMessage.make "user" "hello" 1 "" [] [] none

/-- A session holding exactly one message. -/
def sessionOne : ConversationSession :=
  { session_id := "s1", messages := [msgA], created_at := 0,
    last_activity := 1, metadata := [] }

/-- C7 counterexample: get_recent_messages 0 on a one-message session
returns the whole list (the slice [-0:] is [0:]), not the last zero
messages, so the claim fails at count = 0. -/
theorem get_recent_messages_zero_cex :
    sessionOne.get_recent_messages 0 = sessionOne.messages ∧
      sessionOne.messages.length = 1 := ⟨rfl, rfl⟩

/-- C7 amended: for every count of at least 1, get_recent_messages
returns exactly the suffix of the message list obtained by dropping all
but the last count entries, in original order: the last count messages
when the session holds more than count, the full list otherwise (for
counts below 1 the negative-index slice returns other portions of the
list, as the counterexample shows at 0). -/
theorem get_recent_messages_window :
    ∀ (s : ConversationSession) (count : Int), 1 ≤ count →
      s.get_recent_messages count
        = s.messages.drop (s.messages.length - count.toNat) := by
  intro s count hc
  unfold ConversationSession.get_recent_messages
  by_cases h : (s.messages.length : Int) > count
  · rw [if_pos h]
    unfold pySliceFrom
    dsimp only
    rw [if_pos (by omega : -count < 0)]
    rw [max_eq_left (by omega : (0 : Int) ≤ -count + s.messages.length)]
    congr 1
    omega
  · rw [if_neg h]
    have hz : s.messages.length - count.toNat = 0 := by omega
    rw [hz, List.drop_zero]

/-- C7 witness: requesting 10 messages from the one-message session
returns the whole list. -/
theorem get_recent_messages_window_witness :
    (1 : Int) ≤ 10 ∧
      sessionOne.get_recent_messages 10
        = sessionOne.messages.drop (sessionOne.messages.length - (10 : Int).toNat) :=
  ⟨by decide, get_recent_messages_window sessionOne 10 (by decide)⟩

/- ## Claim C8: document-type detection -/

/-- Extension table as the spec lists it, as a plain conditional over
the lowercased suffix. -/
def specExtensionTable (e : String) : DocumentType :=
  if e = ".pdf" then .pdf
  else if e = ".docx" then .docx
  else if e = ".md" then .md
  else if e = ".txt" then .txt
  else if e = ".html" then .web
  else if e = ".htm" then .web
  else .unknown

theorem detect_eq_table (s : String) :
    detect_document_type s = specExtensionTable (lowerSuffixOf s) := by
  unfold detect_document_type specExtensionTable typeMapping
  generalize lowerSuffixOf s = e
  by_cases h1 : e = ".pdf" <;>
    by_cases h2 : e = ".docx" <;>
    by_cases h3 : e = ".md" <;>
    by_cases h4 : e = ".txt" <;>
    by_cases h5 : e = ".html" <;>
    by_cases h6 : e = ".htm" <;>
    simp_all [assocGetD, eq_comm]

/-- C8: type detection is a pure function of the lowercased pathlib
suffix of the file path, mapped through the fixed table with everything
else (including the empty suffix of extension-less paths) going to
unknown; the operation is total, so it never raises. -/
theorem detect_document_type_spec :
    (∀ s : String, detect_document_type s = specExtensionTable (lowerSuffixOf s)) ∧
    (∀ s t : String, lowerSuffixOf s = lowerSuffixOf t →
      detect_document_type s = detect_document_type t) ∧
    (∀ s : String, lowerSuffixOf s = "" → detect_document_type s = .unknown) :=
  ⟨detect_eq_table,
   fun s t h => by rw [detect_eq_table, detect_eq_table, h],
   fun s h => by rw [detect_eq_table, h]; rfl⟩

/-- C8 witness: detection evaluated on a mixed-case path, a lowercase
path with the same extension, and an extension-less path. -/
theorem detect_document_type_spec_witness :
    lowerSuffixOf "a/b/Report.PDF" = lowerSuffixOf "c.pdf" ∧
    detect_document_type "a/b/Report.PDF" = detect_document_type "c.pdf" ∧
    lowerSuffixOf "README" = "" ∧
    detect_document_type "README" = .unknown :=
  ⟨by decide,
   detect_document_type_spec.2.1 "a/b/Report.PDF" "c.pdf" (by decide),
   by decide,
   detect_document_type_spec.2.2 "README" (by decide)⟩

/- ## Claim C10 (corrected): detection invariant of the constructors -/

theorem make_fields (cc sf cid : String) (sc ec : Int) (md : Dict)
    (emb : Option (List ℚ)) (dt : DocumentType) (cs : ContentSource)
    (ca : DateTime) :
    (DocumentChunk.make cc sf cid sc ec md emb dt cs ca).source_file = sf ∧
    (DocumentChunk.make cc sf cid sc ec md emb dt cs ca).document_type
      = (if dt = DocumentType.unknown ∧ sf ≠ "" then detect_document_type sf
         else dt) := by
  unfold DocumentChunk.make DocumentChunk.post_init
  by_cases hA : ((ec : Int) = 0 ∧ cc ≠ "")
  · rw [if_pos hA]
    dsimp only
    by_cases hB : (dt = DocumentType.unknown ∧ sf ≠ "")
    · rw [if_pos hB, if_pos hB]; exact ⟨rfl, rfl⟩
    · rw [if_neg hB, if_neg hB]; exact ⟨rfl, rfl⟩
  · rw [if_neg hA]
    dsimp only
    by_cases hB : (dt = DocumentType.unknown ∧ sf ≠ "")
    · rw [if_pos hB, if_pos hB]; exact ⟨rfl, rfl⟩
    · rw [if_neg hB, if_neg hB]; exact ⟨rfl, rfl⟩

theorem make_document_type_ne (cc sf cid : String) (sc ec : Int) (md : Dict)
    (emb : Option (List ℚ)) (dt : DocumentType) (cs : ContentSource)
    (ca : DateTime) (h : specExtensionTable (lowerSuffixOf sf) ≠ .unknown) :
    (DocumentChunk.make cc sf cid sc ec md emb dt cs ca).document_type
      ≠ .unknown := by
  have hsf : sf ≠ "" := by intro he; subst he; exact h rfl
  rw [(make_fields cc sf cid sc ec md emb dt cs ca).2]
  by_cases hdt : dt = DocumentType.unknown ∧ sf ≠ ""
  · rw [if_pos hdt, detect_eq_table]; exact h
  · rw [if_neg hdt]
    intro hdtu
    exact hdt ⟨hdtu, hsf⟩

/-- C10 counterexample: the hidden-file name "a/.pdf" ends in ".pdf"
(case-insensitively) but its pathlib suffix is empty, so a chunk
constructed with document_type unknown keeps unknown. -/
theorem chunk_hidden_file_cex :
    List.isSuffixOf (".pdf".data.map asciiToLower)
        (("a/.pdf" : String).data.map asciiToLower) = true ∧
    (DocumentChunk.make "x" "a/.pdf" "c1" 0 0 [] none .unknown .local_document
      0).document_type = .unknown := by
  constructor
  · decide
  · rfl

/-- C10 amended: whenever the lowercased pathlib suffix of source_file is
in the recognized table (a dot placed after the first character of the
final path component, unlike hidden files such as ".pdf"), construction
with document_type unknown yields the mapped type, construction with any
supplied type never yields unknown, and every chunk produced by a
successful from_dict with such a source_file has a non-unknown type. -/
theorem chunk_type_detection_invariant :
    (∀ (cc sf cid : String) (sc ec : Int) (md : Dict) (emb : Option (List ℚ))
       (cs : ContentSource) (ca : DateTime),
       specExtensionTable (lowerSuffixOf sf) ≠ .unknown →
       (DocumentChunk.make cc sf cid sc ec md emb .unknown cs ca).document_type
         = specExtensionTable (lowerSuffixOf sf)) ∧
    (∀ (cc sf cid : String) (sc ec : Int) (md : Dict) (emb : Option (List ℚ))
       (dt : DocumentType) (cs : ContentSource) (ca : DateTime),
       specExtensionTable (lowerSuffixOf sf) ≠ .unknown →
       (DocumentChunk.make cc sf cid sc ec md emb dt cs ca).document_type
         ≠ .unknown) ∧
    (∀ (now : DateTime) (data : Dict) (c : DocumentChunk),
       DocumentChunk.from_dict now data = .ok c →
       specExtensionTable (lowerSuffixOf c.source_file) ≠ .unknown →
       c.document_type ≠ .unknown) := by
  refine ⟨?_, ?_, ?_⟩
  · intro cc sf cid sc ec md emb cs ca h
    have hsf : sf ≠ "" := by intro he; subst he; exact h rfl
    rw [(make_fields cc sf cid sc ec md emb .unknown cs ca).2]
    rw [if_pos ⟨rfl, hsf⟩]
    exact detect_eq_table sf
  · intro cc sf cid sc ec md emb dt cs ca h
    exact make_document_type_ne cc sf cid sc ec md emb dt cs ca h
  · intro now data c hok h
    simp only [DocumentChunk.from_dict, exbind_ok] at hok
    obtain ⟨dt, -, csrc, -, ca, -, cc, -, sf, -, cid, -, sc, -, ec, -, md, -,
      emb, -, hfin⟩ := hok
    have hc : DocumentChunk.make cc sf cid sc ec md emb dt csrc ca = c :=
      Except.ok.inj hfin
    subst hc
    rw [(make_fields cc sf cid sc ec md emb dt csrc ca).1] at h
    exact make_document_type_ne cc sf cid sc ec md emb dt csrc ca h

/-- A markdown chunk built through the constructor, for the decode part
of the C10 witness. -/
def chunkMdW : DocumentChunk :=
  DocumentChunk.make "notes" "a.md" "c10" 0 0 [] none .unknown .local_document 0

/-- C10 witness: the invariant evaluated at a mixed-case pdf path and at
a decoded markdown chunk. -/
theorem chunk_type_detection_invariant_witness :
    specExtensionTable (lowerSuffixOf "guide.PDF") ≠ .unknown ∧
    (DocumentChunk.make "x" "guide.PDF" "c9" 0 0 [] none .unknown
      .local_document 0).document_type
      = specExtensionTable (lowerSuffixOf "guide.PDF") ∧
    DocumentChunk.from_dict 0 chunkMdW.to_dict = .ok chunkMdW ∧
    chunkMdW.document_type ≠ .unknown :=
  ⟨by decide,
   chunk_type_detection_invariant.1 "x" "guide.PDF" "c9" 0 0 [] none
     .local_document 0 (by decide),
   by rfl,
   chunk_type_detection_invariant.2.2 0 chunkMdW.to_dict chunkMdW (by rfl)
     (by decide)⟩

/- ## Claim C1: serialization roundtrip -/

/-- C1: for every entity in the state the dataclass constructor
establishes (a fixed point of the post-init normalization, which every
constructed or decoded instance is), from_dict of to_dict reconstructs
the entity exactly on every stored field (content, identifiers, raw
scores, status, scrape_frequency and timestamps); the redundant derived
keys emitted by to_dict (length, word_count, relevance_level,
is_relevant, is_stale, is_high_quality, status_emoji, message_count,
total_tokens) are never read by the decoders, which recompute those
properties instead. -/
theorem serialization_roundtrip :
    (∀ (now : DateTime) (c : DocumentChunk), c.post_init = c →
       DocumentChunk.from_dict now c.to_dict = .ok c) ∧
    (∀ (now : DateTime) (m : ConversationMessage), m.post_init = m →
       ConversationMessage.from_dict now m.to_dict = .ok m) ∧
    (∀ (now : DateTime) (r : SearchResult),
       SearchResult.from_dict now r.to_dict = .ok r) ∧
    (∀ (now : DateTime) (ws : WebSource),
       WebSource.from_dict (ws.to_dict now) = .ok ws) ∧
    (∀ (now : DateTime) (s : ConversationSession),
       (∀ m ∈ s.messages, m.post_init = m) →
       ConversationSession.from_dict now s.to_dict = .ok s) ∧
    (∀ (now : DateTime) (v : JsonValue) (d : Dict),
       DocumentChunk.from_dict now (("length", v) :: d)
         = DocumentChunk.from_dict now d ∧
       DocumentChunk.from_dict now (("word_count", v) :: d)
         = DocumentChunk.from_dict now d) ∧
    (∀ (now : DateTime) (v : JsonValue) (d : Dict),
       SearchResult.from_dict now (("relevance_level", v) :: d)
         = SearchResult.from_dict now d ∧
       SearchResult.from_dict now (("is_relevant", v) :: d)
         = SearchResult.from_dict now d) ∧
    (∀ (v : JsonValue) (d : Dict),
       WebSource.from_dict (("is_stale", v) :: d) = WebSource.from_dict d ∧
       WebSource.from_dict (("is_high_quality", v) :: d) = WebSource.from_dict d ∧
       WebSource.from_dict (("status_emoji", v) :: d) = WebSource.from_dict d) ∧
    (∀ (now : DateTime) (v : JsonValue) (d : Dict),
       ConversationSession.from_dict now (("message_count", v) :: d)
         = ConversationSession.from_dict now d ∧
       ConversationSession.from_dict now (("total_tokens", v) :: d)
         = ConversationSession.from_dict now d) := by
  refine ⟨chunk_roundtrip_aux, message_roundtrip_aux,
    search_roundtrip_aux, websource_roundtrip_aux,
    session_roundtrip_aux, ?_, ?_, ?_, ?_⟩
  · intro now v d
    constructor <;>
      simp [DocumentChunk.from_dict, dictGetD, dictLookup, reqStr, getIntD,
        getDictD, getEmbeddingD]
  · intro now v d
    constructor <;>
      simp [SearchResult.from_dict, dictGetD, dictLookup, reqStr, reqFloat,
        getStrD, getDictD]
  · intro v d
    refine ⟨?_, ?_, ?_⟩ <;>
      simp [WebSource.from_dict, decodeLastScraped, dictGetD, dictLookup,
        reqStr, getStrD, getFloatD, getDictD, getIntD]
  · intro now v d
    constructor <;>
      simp [ConversationSession.from_dict, dictGetD, dictLookup, reqStr,
        getDictD, decodeMessages]

/-- A populated chunk built through the constructor. -/
def chunkW : DocumentChunk :=
  DocumentChunk.make "hello world" "docs/a.txt" "chunk-1" 0 0
    [("k", .str "v")] (some [0.5]) .unknown .local_document 3

/-- A populated message built through the constructor (auto id). -/
def msgW : ConversationMessage :=
  ConversationMessage.make "user" "hi" 7 "" ["s1"] [] (some 4)

/-- A session holding the populated message. -/
def sessW : ConversationSession :=
  { session_id := "s", messages := [msgW], created_at := 1,
    last_activity := 7, metadata := [] }

/-- C1 witness: the roundtrip evaluated on a populated chunk, message
and session. -/
theorem serialization_roundtrip_witness :
    (chunkW.post_init = chunkW ∧
      DocumentChunk.from_dict 9 chunkW.to_dict = .ok chunkW) ∧
    (msgW.post_init = msgW ∧
      ConversationMessage.from_dict 9 msgW.to_dict = .ok msgW) ∧
    ((∀ m ∈ sessW.messages, m.post_init = m) ∧
      ConversationSession.from_dict 9 sessW.to_dict = .ok sessW) :=
  ⟨⟨rfl, serialization_roundtrip.1 9 chunkW rfl⟩,
   ⟨rfl, serialization_roundtrip.2.1 9 msgW rfl⟩,
   ⟨fun m hm => by
      have hmeq : m = msgW := by simpa [sessW] using hm
      subst hmeq; rfl,
    serialization_roundtrip.2.2.2.2.1 9 sessW (fun m hm => by
      have hmeq : m = msgW := by simpa [sessW] using hm
      subst hmeq; rfl)⟩⟩

/- ## Claim C9: decode failure modes -/

